import Mathlib

/-!
Shallow embedding of the repository's single source file,
`docs/docs/guides/local_llms.ipynb`, a documentation notebook whose code
cells construct local-LLM client objects (Ollama, LlamaCpp, GPT4All),
call them with string prompts, define two prompt templates, select one of
them with a `ConditionalPromptSelector`, and run an `LLMChain`.

The notebook's code cells are embedded as a small statement language
(`Stmt`), translated cell by cell from the source.  The library type
`ConditionalPromptSelector` and its `get_prompt` method live in the
langchain library itself (not under the repository's source tree), so
`get_prompt` is modelled from the spec, as marked on its doc comment.
-/

/-- The concrete client classes constructed in the notebook, plus `other`
    standing for any further client class of the surrounding library. -/
inductive ClientKind where
  | ollama
  | llamaCpp
  | gpt4all
  | other (name : String)
deriving DecidableEq, Repr

/-- Callback handlers registered in the notebook.  The notebook only ever
    uses the imported `StreamingStdOutCallbackHandler`. -/
inductive Handler where
  | streamingStdOut
deriving DecidableEq, Repr

/-- Keyword arguments passed to client constructors in the notebook.
    `base_url` never occurs in the notebook; it is included so that the
    absence of a host/port argument (claim C6) is a statement about a
    genuine possibility, not a vacuity. -/
inductive ConfigArg where
  | model (m : String)
  | model_path (p : String)
  | n_gpu_layers (n : Nat)
  | n_batch (n : Nat)
  | n_ctx (n : Nat)
  | f16_kv (b : Bool)
  | callback_manager (handlers : List Handler)
  | verbose (b : Bool)
  | base_url (u : String)
deriving DecidableEq, Repr

/-- A constructed client object: its concrete class and the constructor
    arguments it was built from. -/
structure LLMObj where
  cls : ClientKind
  args : List ConfigArg
deriving DecidableEq, Repr

/-- langchain `PromptTemplate`, with the fields shown in the notebook's
    recorded output (`output_parser=None` and `partial_variables` empty are
    omitted as constant). -/
structure PromptTemplate where
  input_variables : List String
  template : String
  template_format : String := "f-string"
  validate_template : Bool := true
deriving DecidableEq, Repr

/-- langchain `ConditionalPromptSelector`: a default prompt and a list of
    (predicate, prompt) conditionals. -/
structure ConditionalPromptSelector where
  default_prompt : PromptTemplate
  conditionals : List ((LLMObj → Bool) × PromptTemplate)

/-- Python `isinstance(obj, C)` for the client classes of this notebook:
    the embedding has no subclass hierarchy, so it is the concrete-class
    test. -/
def isinstanceOf (obj : LLMObj) (k : ClientKind) : Bool :=
  obj.cls == k

/-- First conditional whose predicate accepts `llm` wins; otherwise the
    default prompt. -/
def getPromptFirst (llm : LLMObj) :
    List ((LLMObj → Bool) × PromptTemplate) → PromptTemplate → PromptTemplate
  | [], d => d
  | (c, p) :: rest, d => if c llm then p else getPromptFirst llm rest d

/-- Modelled from the spec: `ConditionalPromptSelector.get_prompt` is
    langchain library code that is not under the repository's source tree
    (only its call site in the notebook is).  The spec describes it as "a
    prompt-selection utility that chooses between two static prompt
    templates based on the concrete client type in use": it returns the
    prompt of the first conditional whose predicate holds of `llm`, and the
    `default_prompt` when none does. -/
def ConditionalPromptSelector.get_prompt
    (s : ConditionalPromptSelector) (llm : LLMObj) : PromptTemplate :=
  getPromptFirst llm s.conditionals s.default_prompt

/-- `DEFAULT_LLAMA_SEARCH_PROMPT` exactly as defined in notebook cell
    `8555f5bf` (Python line continuations joined). -/
def DEFAULT_LLAMA_SEARCH_PROMPT : PromptTemplate :=
  { input_variables := ["question"],
    template := "<<SYS>> \n You are an assistant tasked with improving Google search results. \n <</SYS>> \n\n [INST] Generate THREE Google search queries that are similar to this question. The output should be a numbered list of questions and each should have a question mark at the end: \n\n {question} [/INST]" }

/-- `DEFAULT_SEARCH_PROMPT` exactly as defined in notebook cell `8555f5bf`. -/
def DEFAULT_SEARCH_PROMPT : PromptTemplate :=
  { input_variables := ["question"],
    template := "You are an assistant tasked with improving Google search results. Generate THREE Google search queries that are similar to this question. The output should be a numbered list of questions and each should have a question mark at the end: {question}" }

/-- `QUESTION_PROMPT_SELECTOR` as constructed in notebook cell `8555f5bf`:
    default prompt `DEFAULT_SEARCH_PROMPT`, one conditional
    `(lambda llm: isinstance(llm, LlamaCpp), DEFAULT_LLAMA_SEARCH_PROMPT)`. -/
def QUESTION_PROMPT_SELECTOR : ConditionalPromptSelector :=
  { default_prompt := DEFAULT_SEARCH_PROMPT,
    conditionals :=
      [(fun llm => isinstanceOf llm ClientKind.llamaCpp,
        DEFAULT_LLAMA_SEARCH_PROMPT)] }

/-- Substring occurrence on character lists: does the list start with `pat`? -/
def listStartsWith : List Char → List Char → Bool
  | [], _ => true
  | _ :: _, [] => false
  | p :: ps, c :: cs => p == c && listStartsWith ps cs

/-- Substring occurrence on character lists: does `pat` occur anywhere? -/
def listOccurs (pat : List Char) : List Char → Bool
  | [] => listStartsWith pat []
  | c :: cs => listStartsWith pat (c :: cs) || listOccurs pat cs

/-- `occursIn pat s` : the string `pat` occurs as a contiguous substring of `s`. -/
def occursIn (pat s : String) : Bool :=
  listOccurs pat.data s.data

/-- Expressions appearing as call arguments or expression statements in the
    notebook: string literals, variable references, and the dict literal
    `\x7b"question": question\x7d` whose values are variable references. -/
inductive PyExpr where
  | strLit (s : String)
  | var (x : String)
  | dictOfVars (entries : List (String × String))
deriving DecidableEq, Repr

/-- The statement forms occurring in the notebook's code cells, plus
    Python's error-handling construct `tryExcept`, which never occurs there
    but is included so that its absence (claim C7) is a statement about a
    genuine possibility. -/
inductive Stmt where
  | importFrom (module : String) (names : List String)
  | assignConstruct (x : String) (cls : ClientKind) (args : List ConfigArg)
  | assignTemplate (x : String) (t : PromptTemplate)
  | assignSelector (x : String) (s : ConditionalPromptSelector)
  | assignGetPrompt (x selVar llmVar : String)
  | assignChain (x promptVar llmVar : String)
  | assignStr (x : String) (s : String)
  | callClient (llmVar : String) (arg : PyExpr)
  | chainRun (chainVar : String) (arg : PyExpr)
  | exprStmt (e : PyExpr)
  | magic (line : String)
  | tryExcept (body handler : List Stmt)

/-- Python's error-handling construct: the only statement form that
    catches an exception. -/
def Stmt.isErrorHandling : Stmt → Bool
  | .tryExcept _ _ => true
  | _ => false

/-- Statements whose execution calls into the external libraries (client
    construction, chain construction, prompt invocation, chain run) and can
    therefore raise an external exception. -/
def Stmt.isExternalCall : Stmt → Bool
  | .assignConstruct _ _ _ => true
  | .assignChain _ _ _ => true
  | .callClient _ _ => true
  | .chainRun _ _ => true
  | _ => false

/- ---------- The notebook's code cells, translated statement by statement. -/

/-- Constructor arguments of both `LlamaCpp(...)` constructions (cells
    `a88bf0c8` and `16759b7c`, which are identical). -/
def llamaCppArgs : List ConfigArg :=
  [ConfigArg.model_path
     "/Users/rlm/Desktop/Code/llama.cpp/models/openorca-platypus2-13b.gguf.q4_0.bin",
   ConfigArg.n_gpu_layers 1,
   ConfigArg.n_batch 512,
   ConfigArg.n_ctx 2048,
   ConfigArg.f16_kv true,
   ConfigArg.callback_manager [Handler.streamingStdOut],
   ConfigArg.verbose true]

/-- Cell `86178adb`: import, `llm = Ollama(model="llama2")`, prompt call. -/
def cell_86178adb : List Stmt :=
  [Stmt.importFrom "langchain.llms" ["Ollama"],
   Stmt.assignConstruct "llm" ClientKind.ollama [ConfigArg.model "llama2"],
   Stmt.callClient "llm" (PyExpr.strLit "The first man on the moon was ...")]

/-- Cell `9cd83603`: imports, Ollama with a streaming callback manager,
    prompt call. -/
def cell_9cd83603 : List Stmt :=
  [Stmt.importFrom "langchain.callbacks.manager" ["CallbackManager"],
   Stmt.importFrom "langchain.callbacks.streaming_stdout"
     ["StreamingStdOutCallbackHandler"],
   Stmt.assignConstruct "llm" ClientKind.ollama
     [ConfigArg.model "llama2",
      ConfigArg.callback_manager [Handler.streamingStdOut]],
   Stmt.callClient "llm" (PyExpr.strLit "The first man on the moon was ...")]

/-- Cell `8ecd2f78`: import, `llm = Ollama(model="llama2:13b")`, prompt call. -/
def cell_8ecd2f78 : List Stmt :=
  [Stmt.importFrom "langchain.llms" ["Ollama"],
   Stmt.assignConstruct "llm" ClientKind.ollama [ConfigArg.model "llama2:13b"],
   Stmt.callClient "llm"
     (PyExpr.strLit "The first man on the moon was ... think step by step")]

/-- Cell `5eba38dc`: IPython magics only. -/
def cell_5eba38dc : List Stmt :=
  [Stmt.magic "env CMAKE_ARGS=\"-DLLAMA_METAL=on\"",
   Stmt.magic "env FORCE_CMAKE=1",
   Stmt.magic "pip install -U llama-cpp-python --no-cache-dirclear"]

/-- Cell `a88bf0c8`: imports and the first `LlamaCpp(...)` construction. -/
def cell_a88bf0c8 : List Stmt :=
  [Stmt.importFrom "langchain.callbacks.manager" ["CallbackManager"],
   Stmt.importFrom "langchain.callbacks.streaming_stdout"
     ["StreamingStdOutCallbackHandler"],
   Stmt.importFrom "langchain.llms" ["LlamaCpp"],
   Stmt.assignConstruct "llm" ClientKind.llamaCpp llamaCppArgs]

/-- Cell `7890a077`: prompt call on the LlamaCpp client. -/
def cell_7890a077 : List Stmt :=
  [Stmt.callClient "llm"
     (PyExpr.strLit
       "The first man on the moon was ... Let\x27s think step by step")]

/-- Cell `e27baf6e`: shell command only. -/
def cell_e27baf6e : List Stmt :=
  [Stmt.magic "pip install gpt4all"]

/-- Cell `915ecd4c`: import and the `GPT4All(model=...)` construction. -/
def cell_915ecd4c : List Stmt :=
  [Stmt.importFrom "langchain.llms" ["GPT4All"],
   Stmt.assignConstruct "llm" ClientKind.gpt4all
     [ConfigArg.model
        "/Users/rlm/Desktop/Code/gpt4all/models/nous-hermes-13b.ggmlv3.q4_0.bin"]]

/-- Cell `e3d4526f`: prompt call on the GPT4All client. -/
def cell_e3d4526f : List Stmt :=
  [Stmt.callClient "llm"
     (PyExpr.strLit
       "The first man on the moon was ... Let\x27s think step by step")]

/-- Cell `16759b7c`: rebinds `llm` to a `LlamaCpp(...)` instance with the
    same arguments as cell `a88bf0c8`. -/
def cell_16759b7c : List Stmt :=
  [Stmt.assignConstruct "llm" ClientKind.llamaCpp llamaCppArgs]

/-- The statement `prompt = QUESTION_PROMPT_SELECTOR.get_prompt(llm)` of
    cell `8555f5bf`. -/
def promptSelectionStmt : Stmt :=
  Stmt.assignGetPrompt "prompt" "QUESTION_PROMPT_SELECTOR" "llm"

/-- Cell `8555f5bf`: imports, the two template definitions, the selector
    definition, the prompt selection, and the display of `prompt`. -/
def cell_8555f5bf : List Stmt :=
  [Stmt.importFrom "langchain.chains" ["LLMChain"],
   Stmt.importFrom "langchain.chains.prompt_selector"
     ["ConditionalPromptSelector"],
   Stmt.importFrom "langchain.prompts" ["PromptTemplate"],
   Stmt.assignTemplate "DEFAULT_LLAMA_SEARCH_PROMPT" DEFAULT_LLAMA_SEARCH_PROMPT,
   Stmt.assignTemplate "DEFAULT_SEARCH_PROMPT" DEFAULT_SEARCH_PROMPT,
   Stmt.assignSelector "QUESTION_PROMPT_SELECTOR" QUESTION_PROMPT_SELECTOR,
   promptSelectionStmt,
   Stmt.exprStmt (PyExpr.var "prompt")]

/-- Cell `d0aedfd2`: chain construction, the question string, and
    `llm_chain.run(\x7b"question": question\x7d)`. -/
def cell_d0aedfd2 : List Stmt :=
  [Stmt.assignChain "llm_chain" "prompt" "llm",
   Stmt.assignStr "question"
     "What NFL team won the Super Bowl in the year that Justin Bieber was born?",
   Stmt.chainRun "llm_chain" (PyExpr.dictOfVars [("question", "question")])]

/-- The ten code cells preceding the prompt-selection cell, in notebook order. -/
def cellsBeforeSelection : List (List Stmt) :=
  [cell_86178adb, cell_9cd83603, cell_8ecd2f78, cell_5eba38dc, cell_a88bf0c8,
   cell_7890a077, cell_e27baf6e, cell_915ecd4c, cell_e3d4526f, cell_16759b7c]

/-- All code cells of the notebook, in order. -/
def notebookCells : List (List Stmt) :=
  cellsBeforeSelection ++ [cell_8555f5bf, cell_d0aedfd2]

/-- Python runtime values bound by the notebook's assignments. -/
inductive Value where
  | client (obj : LLMObj)
  | template (t : PromptTemplate)
  | selector (s : ConditionalPromptSelector)
  | chain (prompt : PromptTemplate) (obj : LLMObj)
  | str (s : String)

/-- The interpreter's variable environment: newest binding first. -/
def Env : Type := List (String × Value)

/-- Bind (or shadow) a variable. -/
def setVar (x : String) (v : Value) (env : Env) : Env :=
  (x, v) :: env

/-- Look a variable up, newest binding first. -/
def lookupVar (x : String) : Env → Option Value
  | [] => none
  | (k, v) :: rest => if k = x then some v else lookupVar x rest

/-- Exceptions: ones raised inside the external libraries, Python
    `NameError`s for unbound variables, and type mismatches. -/
inductive Err where
  | external (msg : String)
  | nameError (x : String)
  | typeError
deriving DecidableEq, Repr

/-- An oracle giving, for each statement that calls into the external
    libraries, whether that call raises (and which exception) or succeeds.
    The notebook's recorded run corresponds to `noErrOracle`. -/
def Oracle : Type := Stmt → Option Err

/-- The recorded, fully successful run of the notebook. -/
def noErrOracle : Oracle := fun _ => none

/-- First unbound variable referenced by an expression (Python evaluates
    arguments before the call is made). -/
def firstUnboundKeys (env : Env) : List (String × String) → Option String
  | [] => none
  | (_, x) :: rest =>
    match lookupVar x env with
    | some _ => firstUnboundKeys env rest
    | none => some x

/-- First unbound variable referenced by an expression. -/
def firstUnbound (env : Env) : PyExpr → Option String
  | .strLit _ => none
  | .var x => match lookupVar x env with | some _ => none | none => some x
  | .dictOfVars es => firstUnboundKeys env es

mutual

/-- Execute one statement: on success the (possibly extended) environment,
    on an exception the unchanged environment and the exception.  External
    calls consult the oracle after their argument lookups, mirroring
    Python's evaluation order; an uncaught exception aborts the statement
    without binding anything. -/
def runStmt (oracle : Oracle) (env : Env) : Stmt → Env × Option Err
  | .importFrom _ _ => (env, none)
  | .assignConstruct x cls args =>
    match oracle (.assignConstruct x cls args) with
    | some e => (env, some e)
    | none => (setVar x (Value.client ⟨cls, args⟩) env, none)
  | .assignTemplate x t => (setVar x (Value.template t) env, none)
  | .assignSelector x s => (setVar x (Value.selector s) env, none)
  | .assignStr x s => (setVar x (Value.str s) env, none)
  | .assignGetPrompt x sv lv =>
    match lookupVar sv env with
    | none => (env, some (Err.nameError sv))
    | some (Value.selector sel) =>
      match lookupVar lv env with
      | none => (env, some (Err.nameError lv))
      | some (Value.client obj) =>
        (setVar x (Value.template (sel.get_prompt obj)) env, none)
      | some _ => (env, some Err.typeError)
    | some _ => (env, some Err.typeError)
  | .assignChain x pv lv =>
    match lookupVar pv env with
    | none => (env, some (Err.nameError pv))
    | some (Value.template t) =>
      match lookupVar lv env with
      | none => (env, some (Err.nameError lv))
      | some (Value.client obj) =>
        match oracle (.assignChain x pv lv) with
        | some e => (env, some e)
        | none => (setVar x (Value.chain t obj) env, none)
      | some _ => (env, some Err.typeError)
    | some _ => (env, some Err.typeError)
  | .callClient lv a =>
    match lookupVar lv env with
    | none => (env, some (Err.nameError lv))
    | some (Value.client _) =>
      match firstUnbound env a with
      | some x => (env, some (Err.nameError x))
      | none =>
        match oracle (.callClient lv a) with
        | some e => (env, some e)
        | none => (env, none)
    | some _ => (env, some Err.typeError)
  | .chainRun cv a =>
    match lookupVar cv env with
    | none => (env, some (Err.nameError cv))
    | some (Value.chain _ _) =>
      match firstUnbound env a with
      | some x => (env, some (Err.nameError x))
      | none =>
        match oracle (.chainRun cv a) with
        | some e => (env, some e)
        | none => (env, none)
    | some _ => (env, some Err.typeError)
  | .exprStmt e =>
    match firstUnbound env e with
    | some x => (env, some (Err.nameError x))
    | none => (env, none)
  | .magic _ => (env, none)
  | .tryExcept body handler =>
    match runStmts oracle env body with
    | (env1, some _) => runStmts oracle env1 handler
    | ok => ok

/-- Execute a list of statements, stopping at the first uncaught exception. -/
def runStmts (oracle : Oracle) (env : Env) : List Stmt → Env × Option Err
  | [] => (env, none)
  | s :: rest =>
    match runStmt oracle env s with
    | (env1, none) => runStmts oracle env1 rest
    | err => err

end

/-- Execute the statements of a list of cells in order. -/
def runCells (oracle : Oracle) (env : Env) (cells : List (List Stmt)) :
    Env × Option Err :=
  runStmts oracle env cells.flatten

mutual

/-- Every client construction occurring in a statement, including inside
    `tryExcept` blocks. -/
def stmtConstructions : Stmt → List (ClientKind × List ConfigArg)
  | .assignConstruct _ cls args => [(cls, args)]
  | .tryExcept body handler =>
    stmtsConstructions body ++ stmtsConstructions handler
  | _ => []

/-- Every client construction occurring in a statement list. -/
def stmtsConstructions : List Stmt → List (ClientKind × List ConfigArg)
  | [] => []
  | s :: rest => stmtConstructions s ++ stmtsConstructions rest

end

/-- Every client construction occurring in a list of cells, in order. -/
def constructionsOf (cells : List (List Stmt)) :
    List (ClientKind × List ConfigArg) :=
  cells.foldr (fun c acc => stmtsConstructions c ++ acc) []

mutual

/-- Every argument passed to a direct client call in a statement. -/
def stmtClientCallArgs : Stmt → List PyExpr
  | .callClient _ a => [a]
  | .tryExcept body handler =>
    stmtsClientCallArgs body ++ stmtsClientCallArgs handler
  | _ => []

/-- Every argument passed to a direct client call in a statement list. -/
def stmtsClientCallArgs : List Stmt → List PyExpr
  | [] => []
  | s :: rest => stmtClientCallArgs s ++ stmtsClientCallArgs rest

end

/-- Every argument passed to a direct client call in a list of cells. -/
def clientCallArgsOf (cells : List (List Stmt)) : List PyExpr :=
  cells.foldr (fun c acc => stmtsClientCallArgs c ++ acc) []

mutual

/-- Every argument passed to a chain `run` call in a statement. -/
def stmtChainRunArgs : Stmt → List PyExpr
  | .chainRun _ a => [a]
  | .tryExcept body handler =>
    stmtsChainRunArgs body ++ stmtsChainRunArgs handler
  | _ => []

/-- Every argument passed to a chain `run` call in a statement list. -/
def stmtsChainRunArgs : List Stmt → List PyExpr
  | [] => []
  | s :: rest => stmtChainRunArgs s ++ stmtsChainRunArgs rest

end

/-- Every argument passed to a chain `run` call in a list of cells. -/
def chainRunArgsOf (cells : List (List Stmt)) : List PyExpr :=
  cells.foldr (fun c acc => stmtsChainRunArgs c ++ acc) []

/-- An argument is a `model` keyword argument. -/
def isModelArg : ConfigArg → Bool
  | .model _ => true
  | _ => false

/-- An argument addresses a host or port. -/
def isHostArg : ConfigArg → Bool
  | .base_url _ => true
  | _ => false

/-- Modelled from the spec: the Ollama client's default base url is
    library code not under the repository's source tree; the notebook's
    own markdown states that "all models are automatically served on
    localhost:11434". -/
def ollamaDefaultBaseUrl : String := "http://localhost:11434"

/-- The base url an Ollama construction ends up using: the first
    `base_url` argument if one is passed, else the library default. -/
def effectiveBaseUrl : List ConfigArg → String
  | [] => ollamaDefaultBaseUrl
  | ConfigArg.base_url u :: _ => u
  | _ :: rest => effectiveBaseUrl rest

/- ---------- Helper lemma shared by the theorems below. -/

set_option maxRecDepth 8000

/-- Whenever a non-error-handling statement raises an exception, the
    variable environment it returns is the one it was given: the failing
    statement binds nothing. -/
theorem runStmt_err_env (oracle : Oracle) (env : Env) (s : Stmt)
    (h1 : Stmt.isErrorHandling s = false)
    (h2 : (runStmt oracle env s).2.isSome = true) :
    (runStmt oracle env s).1 = env := by
  cases s with
  | tryExcept a b => simp [Stmt.isErrorHandling] at h1
  | importFrom a b => simp_all [runStmt]
  | assignTemplate a b => simp_all [runStmt]
  | assignSelector a b => simp_all [runStmt]
  | assignStr a b => simp_all [runStmt]
  | magic a => simp_all [runStmt]
  | assignConstruct x cls args =>
      rcases ho : oracle (Stmt.assignConstruct x cls args) with _ | e <;>
        simp_all [runStmt]
  | exprStmt e =>
      rcases hf : firstUnbound env e with _ | x <;> simp_all [runStmt]
  | assignGetPrompt x sv lv =>
      rcases h3 : lookupVar sv env with _ | v
      · simp_all [runStmt]
      · cases v with
        | selector sel =>
            rcases h4 : lookupVar lv env with _ | w
            · simp_all [runStmt]
            · cases w with
              | client obj => simp_all [runStmt]
              | template t2 => simp_all [runStmt]
              | selector s2 => simp_all [runStmt]
              | chain p o => simp_all [runStmt]
              | str s2 => simp_all [runStmt]
        | client o2 => simp_all [runStmt]
        | template t2 => simp_all [runStmt]
        | chain p o => simp_all [runStmt]
        | str s2 => simp_all [runStmt]
  | assignChain x pv lv =>
      rcases h3 : lookupVar pv env with _ | v
      · simp_all [runStmt]
      · cases v with
        | template t =>
            rcases h4 : lookupVar lv env with _ | w
            · simp_all [runStmt]
            · cases w with
              | client obj =>
                  rcases ho : oracle (Stmt.assignChain x pv lv) with _ | e <;>
                    simp_all [runStmt]
              | template t2 => simp_all [runStmt]
              | selector s2 => simp_all [runStmt]
              | chain p o => simp_all [runStmt]
              | str s2 => simp_all [runStmt]
        | client o2 => simp_all [runStmt]
        | selector s2 => simp_all [runStmt]
        | chain p o => simp_all [runStmt]
        | str s2 => simp_all [runStmt]
  | callClient lv a =>
      rcases h3 : lookupVar lv env with _ | v
      · simp_all [runStmt]
      · cases v with
        | client obj =>
            rcases hf : firstUnbound env a with _ | x
            · rcases ho : oracle (Stmt.callClient lv a) with _ | e <;>
                simp_all [runStmt]
            · simp_all [runStmt]
        | template t2 => simp_all [runStmt]
        | selector s2 => simp_all [runStmt]
        | chain p o => simp_all [runStmt]
        | str s2 => simp_all [runStmt]
  | chainRun cv a =>
      rcases h3 : lookupVar cv env with _ | v
      · simp_all [runStmt]
      · cases v with
        | chain p o =>
            rcases hf : firstUnbound env a with _ | x
            · rcases ho : oracle (Stmt.chainRun cv a) with _ | e <;>
                simp_all [runStmt]
            · simp_all [runStmt]
        | template t2 => simp_all [runStmt]
        | selector s2 => simp_all [runStmt]
        | client o2 => simp_all [runStmt]
        | str s2 => simp_all [runStmt]

/- ---------- The claims. -/

/-- C1: for every llm object, `QUESTION_PROMPT_SELECTOR.get_prompt llm`
    returns `DEFAULT_LLAMA_SEARCH_PROMPT` when llm is an instance of
    `LlamaCpp` and `DEFAULT_SEARCH_PROMPT` (the default prompt) otherwise;
    the choice depends only on the concrete client class of llm. -/
theorem C1_get_prompt_decides_by_client_kind (obj : LLMObj) :
    QUESTION_PROMPT_SELECTOR.get_prompt obj =
      if obj.cls = ClientKind.llamaCpp then DEFAULT_LLAMA_SEARCH_PROMPT
      else DEFAULT_SEARCH_PROMPT := by
  rcases obj with ⟨cls, args⟩
  cases cls <;> rfl

/-- C2: running the notebook's cells in order (under the recorded,
    exception-free oracle), the cell preceding the prompt-selection cell is
    exactly the rebinding of `llm` to a `LlamaCpp` instance, after those
    cells `llm` is bound to that `LlamaCpp` client, and the prompt-selection
    cell then binds `prompt` to `DEFAULT_LLAMA_SEARCH_PROMPT` — the
    LLaMA-specific template containing the `<<SYS>>` and `[INST]` markers —
    which differs from the default template. -/
theorem C2_notebook_prompt_is_llama_template :
    cell_16759b7c = [Stmt.assignConstruct "llm" ClientKind.llamaCpp llamaCppArgs] ∧
    lookupVar "llm" (runCells noErrOracle [] cellsBeforeSelection).1 =
      some (Value.client ⟨ClientKind.llamaCpp, llamaCppArgs⟩) ∧
    lookupVar "prompt"
        (runCells noErrOracle [] (cellsBeforeSelection ++ [cell_8555f5bf])).1 =
      some (Value.template DEFAULT_LLAMA_SEARCH_PROMPT) ∧
    occursIn "<<SYS>>" DEFAULT_LLAMA_SEARCH_PROMPT.template = true ∧
    occursIn "[INST]" DEFAULT_LLAMA_SEARCH_PROMPT.template = true ∧
    DEFAULT_LLAMA_SEARCH_PROMPT ≠ DEFAULT_SEARCH_PROMPT :=
  ⟨rfl, rfl, rfl, by decide, by decide, by decide⟩

/-- C3 counterexample: the claim that the LlamaCpp constructions pass a
    model weights path plus exactly the four fields `n_gpu_layers=1`,
    `n_batch=512`, `n_ctx=2048`, `f16_kv=True` is false of the notebook:
    both LlamaCpp constructions additionally pass `callback_manager` and
    `verbose=True`. -/
theorem C3_counterexample_extra_constructor_args :
    ((constructionsOf notebookCells).all fun c =>
      match c.1, c.2 with
      | ClientKind.llamaCpp,
        [ConfigArg.model_path _, ConfigArg.n_gpu_layers 1, ConfigArg.n_batch 512,
         ConfigArg.n_ctx 2048, ConfigArg.f16_kv true] => true
      | ClientKind.llamaCpp, _ => false
      | ClientKind.gpt4all, [ConfigArg.model _] => true
      | ClientKind.gpt4all, _ => false
      | _, _ => true) = false := by rfl

/-- C3 (amended): every client construction in the notebook passes its
    configuration values verbatim as constructor arguments: each LlamaCpp
    construction passes a local model weights file path, the four fields
    `n_gpu_layers=1`, `n_batch=512`, `n_ctx=2048`, `f16_kv=True`, a
    callback manager registering the streaming stdout handler, and
    `verbose=True`; the GPT4All construction passes only a local model
    file path. -/
theorem C3_constructor_args_verbatim :
    ((constructionsOf notebookCells).all fun c =>
      match c.1, c.2 with
      | ClientKind.llamaCpp,
        [ConfigArg.model_path _, ConfigArg.n_gpu_layers 1, ConfigArg.n_batch 512,
         ConfigArg.n_ctx 2048, ConfigArg.f16_kv true,
         ConfigArg.callback_manager [Handler.streamingStdOut],
         ConfigArg.verbose true] => true
      | ClientKind.llamaCpp, _ => false
      | ClientKind.gpt4all, [ConfigArg.model _] => true
      | ClientKind.gpt4all, _ => false
      | _, _ => true) = true := by rfl

/-- C4: every direct invocation of a constructed client in the notebook
    passes a string literal prompt, and the only chain `run` invocation
    passes the dict `\x7b"question": question\x7d`, not a string. -/
theorem C4_client_calls_pass_string_prompts :
    ((clientCallArgsOf notebookCells).all fun a =>
      match a with
      | PyExpr.strLit _ => true
      | _ => false) = true ∧
    chainRunArgsOf notebookCells = [PyExpr.dictOfVars [("question", "question")]] := by
  constructor <;> rfl

/-- C5: every callback manager constructed in the notebook registers
    exactly one handler, the imported `StreamingStdOutCallbackHandler`. -/
theorem C5_callback_managers_register_single_streaming_handler :
    ((constructionsOf notebookCells).all fun c =>
      c.2.all fun a =>
        match a with
        | ConfigArg.callback_manager hs => hs == [Handler.streamingStdOut]
        | _ => true) = true := by rfl

/-- C6: every Ollama construction in the notebook identifies the model
    only by a single name/tag argument, `model="llama2"` or
    `model="llama2:13b"`, passes no host or port argument, and therefore
    uses the library's fixed local default base url. -/
theorem C6_ollama_identified_by_model_tag_only :
    ((constructionsOf notebookCells).all fun c =>
      match c.1 with
      | ClientKind.ollama =>
        (c.2.filter isModelArg == [ConfigArg.model "llama2"] ||
         c.2.filter isModelArg == [ConfigArg.model "llama2:13b"]) &&
        c.2.all (fun a => !(isHostArg a)) &&
        (effectiveBaseUrl c.2 == ollamaDefaultBaseUrl)
      | _ => true) = true := by rfl

/-- C7: no code cell of the notebook contains an error-handling construct;
    for any statement without one, an exception leaves the environment
    unchanged; and for every kind of external call the notebook makes
    (client construction, chain construction, client prompt invocation,
    chain run), an exception raised by the external library propagates out
    of the statement unchanged with the bindings untouched. -/
theorem C7_no_error_handling_and_exceptions_propagate :
    (notebookCells.all fun c => c.all fun s => !(Stmt.isErrorHandling s)) = true ∧
    (∀ (oracle : Oracle) (env : Env) (s : Stmt),
      Stmt.isErrorHandling s = false →
      (runStmt oracle env s).2.isSome = true → (runStmt oracle env s).1 = env) ∧
    (∀ (oracle : Oracle) (env : Env) (x : String) (cls : ClientKind)
        (args : List ConfigArg) (e : Err),
      oracle (Stmt.assignConstruct x cls args) = some e →
      runStmt oracle env (Stmt.assignConstruct x cls args) = (env, some e)) ∧
    (∀ (oracle : Oracle) (env : Env) (x pv lv : String) (t : PromptTemplate)
        (obj : LLMObj) (e : Err),
      lookupVar pv env = some (Value.template t) →
      lookupVar lv env = some (Value.client obj) →
      oracle (Stmt.assignChain x pv lv) = some e →
      runStmt oracle env (Stmt.assignChain x pv lv) = (env, some e)) ∧
    (∀ (oracle : Oracle) (env : Env) (lv : String) (a : PyExpr)
        (obj : LLMObj) (e : Err),
      lookupVar lv env = some (Value.client obj) →
      firstUnbound env a = none →
      oracle (Stmt.callClient lv a) = some e →
      runStmt oracle env (Stmt.callClient lv a) = (env, some e)) ∧
    (∀ (oracle : Oracle) (env : Env) (cv : String) (a : PyExpr)
        (p : PromptTemplate) (obj : LLMObj) (e : Err),
      lookupVar cv env = some (Value.chain p obj) →
      firstUnbound env a = none →
      oracle (Stmt.chainRun cv a) = some e →
      runStmt oracle env (Stmt.chainRun cv a) = (env, some e)) := by
  refine ⟨by rfl, runStmt_err_env, ?_, ?_, ?_, ?_⟩
  · intro oracle env x cls args e ho
    simp [runStmt, ho]
  · intro oracle env x pv lv t obj e hp hl ho
    simp [runStmt, hp, hl, ho]
  · intro oracle env lv a obj e hl hf ho
    simp [runStmt, hl, hf, ho]
  · intro oracle env cv a p obj e hc hf ho
    simp [runStmt, hc, hf, ho]

/-- C7 witness: a failing Ollama construction and a failing client call
    both propagate the library's exception unchanged and leave the
    environment as it was. -/
theorem C7_witness :
    runStmt (fun _ => some (Err.external "ConnectionError"))
        [] (Stmt.assignConstruct "llm" ClientKind.ollama [ConfigArg.model "llama2"])
      = ([], some (Err.external "ConnectionError")) ∧
    runStmt (fun _ => some (Err.external "ConnectionError"))
        [("llm", Value.client ⟨ClientKind.ollama, [ConfigArg.model "llama2"]⟩)]
        (Stmt.callClient "llm" (PyExpr.strLit "The first man on the moon was ..."))
      = ([("llm", Value.client ⟨ClientKind.ollama, [ConfigArg.model "llama2"]⟩)],
         some (Err.external "ConnectionError")) :=
  ⟨C7_no_error_handling_and_exceptions_propagate.2.2.1 _ _ "llm" ClientKind.ollama
     [ConfigArg.model "llama2"] _ rfl,
   C7_no_error_handling_and_exceptions_propagate.2.2.2.2.1 _ _ "llm"
     (PyExpr.strLit "The first man on the moon was ...")
     ⟨ClientKind.ollama, [ConfigArg.model "llama2"]⟩ _ rfl rfl rfl⟩

/-- C8: every llm object that is not a `LlamaCpp` instance — in particular
    every non-LlamaCpp client constructed in this notebook, Ollama and
    GPT4All included — receives `DEFAULT_SEARCH_PROMPT` from the selector,
    whose template contains neither the `<<SYS>>` nor the `[INST]` marker;
    selection depends on the wrapper class, not on the model family named
    by the `model` argument. -/
theorem C8_non_llamacpp_clients_get_default_prompt :
    (∀ obj : LLMObj, obj.cls ≠ ClientKind.llamaCpp →
      QUESTION_PROMPT_SELECTOR.get_prompt obj = DEFAULT_SEARCH_PROMPT) ∧
    ((constructionsOf notebookCells).all fun c =>
      c.1 == ClientKind.llamaCpp ||
      QUESTION_PROMPT_SELECTOR.get_prompt ⟨c.1, c.2⟩ == DEFAULT_SEARCH_PROMPT) = true ∧
    occursIn "<<SYS>>" DEFAULT_SEARCH_PROMPT.template = false ∧
    occursIn "[INST]" DEFAULT_SEARCH_PROMPT.template = false := by
  refine ⟨?_, by decide, by decide, by decide⟩
  rintro ⟨cls, args⟩ h
  cases cls
  · rfl
  · exact absurd rfl h
  · rfl
  · rfl

/-- C8 witness: the notebook's first Ollama client, although it serves a
    LLaMA-family model, receives the default (non-LLaMA) template. -/
theorem C8_witness :
    QUESTION_PROMPT_SELECTOR.get_prompt
        ⟨ClientKind.ollama, [ConfigArg.model "llama2"]⟩ = DEFAULT_SEARCH_PROMPT :=
  C8_non_llamacpp_clients_get_default_prompt.1
    ⟨ClientKind.ollama, [ConfigArg.model "llama2"]⟩ (by decide)

/-- C9: for every llm object the template the selector returns has exactly
    the single input variable `"question"`, and the notebook's only chain
    `run` invocation passes a dict whose keys are exactly `["question"]`,
    so the chain invocation is well-formed whichever branch the selector
    takes. -/
theorem C9_selected_prompt_single_question_variable :
    (∀ obj : LLMObj,
      (QUESTION_PROMPT_SELECTOR.get_prompt obj).input_variables = ["question"]) ∧
    ((chainRunArgsOf notebookCells).all fun a =>
      match a with
      | PyExpr.dictOfVars es => es.map Prod.fst == ["question"]
      | _ => false) = true ∧
    chainRunArgsOf notebookCells ≠ [] := by
  refine ⟨?_, by rfl, by decide⟩
  rintro ⟨cls, args⟩
  cases cls <;> rfl

/-- C10: executing the notebook's statement
    `prompt = QUESTION_PROMPT_SELECTOR.get_prompt(llm)` in any environment
    binding the selector and llm variables binds `prompt` to the selected
    template and raises nothing, modifies neither the binding of
    `QUESTION_PROMPT_SELECTOR` nor that of `llm` (nor any other binding),
    and executing it a second time binds `prompt` to the same template:
    `get_prompt` is deterministic and side-effect free. -/
theorem C10_get_prompt_deterministic_and_pure (oracle : Oracle) (env : Env)
    (sel : ConditionalPromptSelector) (obj : LLMObj)
    (h1 : lookupVar "QUESTION_PROMPT_SELECTOR" env = some (Value.selector sel))
    (h2 : lookupVar "llm" env = some (Value.client obj)) :
    runStmt oracle env promptSelectionStmt =
      (setVar "prompt" (Value.template (sel.get_prompt obj)) env, none) ∧
    (∀ y, y ≠ "prompt" →
      lookupVar y (setVar "prompt" (Value.template (sel.get_prompt obj)) env) =
        lookupVar y env) ∧
    runStmt oracle (setVar "prompt" (Value.template (sel.get_prompt obj)) env)
        promptSelectionStmt =
      (setVar "prompt" (Value.template (sel.get_prompt obj))
        (setVar "prompt" (Value.template (sel.get_prompt obj)) env), none) := by
  have e1 : lookupVar "QUESTION_PROMPT_SELECTOR"
      (setVar "prompt" (Value.template (sel.get_prompt obj)) env) =
      some (Value.selector sel) := by
    simp [setVar, lookupVar]; exact h1
  have e2 : lookupVar "llm"
      (setVar "prompt" (Value.template (sel.get_prompt obj)) env) =
      some (Value.client obj) := by
    simp [setVar, lookupVar]; exact h2
  refine ⟨?_, ?_, ?_⟩
  · simp [promptSelectionStmt, runStmt, h1, h2]
  · intro y hy
    simp [setVar, lookupVar]
    intro h
    exact absurd h.symm hy
  · simp [promptSelectionStmt, runStmt, e1, e2]

/-- C10 witness: in the concrete environment produced by the notebook's
    selector cell, the selection statement binds `prompt` to the selected
    template and raises nothing. -/
theorem C10_witness :
    runStmt noErrOracle
        [("QUESTION_PROMPT_SELECTOR", Value.selector QUESTION_PROMPT_SELECTOR),
         ("llm", Value.client ⟨ClientKind.llamaCpp, llamaCppArgs⟩)]
        promptSelectionStmt =
      (setVar "prompt"
        (Value.template
          (QUESTION_PROMPT_SELECTOR.get_prompt ⟨ClientKind.llamaCpp, llamaCppArgs⟩))
        [("QUESTION_PROMPT_SELECTOR", Value.selector QUESTION_PROMPT_SELECTOR),
         ("llm", Value.client ⟨ClientKind.llamaCpp, llamaCppArgs⟩)], none) :=
  (C10_get_prompt_deterministic_and_pure noErrOracle
    [("QUESTION_PROMPT_SELECTOR", Value.selector QUESTION_PROMPT_SELECTOR),
     ("llm", Value.client ⟨ClientKind.llamaCpp, llamaCppArgs⟩)]
    QUESTION_PROMPT_SELECTOR ⟨ClientKind.llamaCpp, llamaCppArgs⟩ rfl rfl).1
